import Mathlib

/-!
Verification of the Stealth Crawling & Resilient Ingestion Core
(`src/backend/app/services/crawler_service.py`).

Python strings are modelled as `List Char` (Python `len` and slicing act on
code points, which `List Char` mirrors exactly).  Side effects that no claim
observes (logging, mouse movement, scrolling, sleeps, header setting, the
best-effort networkidle wait) are not modelled.  Interactions with the
browser, the Kafka producer and the refinery are modelled by an explicit
environment (`Env`, `FetchEnv`) describing how each external call behaves,
and by an event trace recording the externally visible calls the code makes.
-/

namespace Crawler

/-- Substring test: models Python's `needle in hay` on strings. -/
def containsSub (needle hay : List Char) : Bool :=
  hay.tails.any (fun t => needle.isPrefixOf t)

/-- Models Python's `str.lower()` (per-character lowercasing). -/
def lowerStr (s : List Char) : List Char :=
  s.map Char.toLower

/-- Resource types a Playwright request can carry (the ones the two route
policies inspect, plus representatives of everything else). -/
inductive ResourceType where
  | image | media | font | stylesheet | script | document | xhr | other
  deriving DecidableEq, Repr

/-- The decision a route handler takes on an intercepted request. -/
inductive RouteAction where
  | abort | continue_
  deriving DecidableEq, Repr

/-- `BLOCKED_DOMAINS` from `_crawl_single_target` (crawler_service.py lines
151-155): tracking/social domains whose requests are aborted. -/
def BLOCKED_DOMAINS : List (List Char) :=
  ["google-analytics.com", "googletagmanager.com", "facebook.net",
   "clarity.ms", "hotjar.com", "linkedin.com", "doubleclick.net",
   "quantserve.com", "scorecardresearch.com", "intercom.io"].map String.data

/-- `SAFE_DOMAINS` from `_handle_route` (line 167): substrings that exempt a
request from the blocked-domain abort. -/
def SAFE_DOMAINS : List (List Char) :=
  ["api.", "graphql", "cdn-cgi", "dorahacks.io", "hackquest.io",
   "superteam.fun", "taikai.network"].map String.data

/-- `any(domain in url for domain in BLOCKED_DOMAINS)` over the lowered URL. -/
def blocked_match (u : List Char) : Bool :=
  BLOCKED_DOMAINS.any (fun d => containsSub d u)

/-- `any(safe in url for safe in SAFE_DOMAINS)` over the lowered URL. -/
def safe_match (u : List Char) : Bool :=
  SAFE_DOMAINS.any (fun s => containsSub s u)

/-- Resource types aborted unconditionally by the batch-crawl route policy
(`_handle_route`, line 163). -/
def batch_blocked_types : List ResourceType :=
  [ResourceType.image, ResourceType.media, ResourceType.font]

/-- Resource types aborted by the direct single-URL fetch route policy
(`fetch_content`, line 293). -/
def fetch_blocked_types : List ResourceType :=
  [ResourceType.image, ResourceType.media, ResourceType.font,
   ResourceType.stylesheet]

/-- `_handle_route` (crawler_service.py lines 157-173): abort image/media/font
unconditionally; otherwise abort on a blocked-domain substring match unless a
safe-domain substring also matches; otherwise continue.  The URL is lowered
first (line 159). -/
def handle_route (resource_type : ResourceType) (request_url : List Char) :
    RouteAction :=
  let url := lowerStr request_url
  if resource_type ∈ batch_blocked_types then RouteAction.abort
  else if blocked_match url && !safe_match url then RouteAction.abort
  else RouteAction.continue_

/-- The route lambda in `fetch_content` (line 293): abort
image/media/font/stylesheet by resource type alone; everything else
continues.  The URL is received but never inspected. -/
def fetch_route (resource_type : ResourceType) (_request_url : List Char) :
    RouteAction :=
  if resource_type ∈ fetch_blocked_types then RouteAction.abort
  else RouteAction.continue_

/-- Models `urlparse(url).netloc` from the Python standard library as used by
`_extract_domain` (lines 278-280): the substring after the first `"//"` up to
the next `/`, `?` or `#`; empty when the URL has no `"//"`.  No claim depends
on its exact value, only on the payload being built once and forwarded
unchanged. -/
def netlocAfterSlashes : List Char → Option (List Char)
  | [] => none
  | '/' :: '/' :: rest => some rest
  | _ :: rest => netlocAfterSlashes rest

/-- `_extract_domain` (crawler_service.py lines 278-280). -/
def extract_domain (url : List Char) : List Char :=
  match netlocAfterSlashes url with
  | none => []
  | some rest =>
      rest.takeWhile (fun c => !(c == '/') && !(c == '?') && !(c == '#'))

/-- `IngestionPayload`: the dict built in `_process_success`
(crawler_service.py lines 251-259). -/
structure Payload where
  url : List Char
  title : List Char
  html : List Char
  crawledAt : Nat
  source : List Char
  intent : List Char
  agentType : List Char
  deriving DecidableEq, Repr

/-- Builds the payload exactly as `_process_success` does: `html` is
`html_content[:200000]`, `crawled_at` is the current clock (`time.time()`,
passed in as `now`), `source` is `_extract_domain(url)`, `agent_type` is the
literal `"HunterDrone-V1"`. -/
def mkPayload (url html_content title intent : List Char) (now : Nat) :
    Payload :=
  { url := url
    title := title
    html := html_content.take 200000
    crawledAt := now
    source := extract_domain url
    intent := intent
    agentType := "HunterDrone-V1".data }

/-- One navigation attempt: the `wait_until` condition passed to
`page.goto`. -/
inductive WaitUntil where
  | domcontentloaded | commit | load
  deriving DecidableEq, Repr

/-- The parameters of one `page.goto` call. -/
structure NavAttempt where
  waitUntil : WaitUntil
  timeoutMs : Nat
  deriving DecidableEq, Repr

/-- Externally visible calls a crawl task makes, in order. -/
inductive Event where
  | contextCreate
  | pageOpen
  | navigate (a : NavAttempt)
  | publishAttempt (key : List Char) (value : Payload)
  | fallback (key : List Char) (value : Payload)
  | contextClose
  deriving DecidableEq, Repr

/-- Result of `_process_success`: the delivery calls it made, and whether it
raised (an uncaught exception escaping to the caller). -/
structure ProcResult where
  events : List Event
  raised : Bool
  deriving DecidableEq, Repr

/-- `_process_success` (crawler_service.py lines 245-276).  `publish` models
the behaviour of `kafka_producer_manager.publish_to_stream` for this call:
`Except.ok b` when it returns the boolean `b`, `Except.error ()` when it
raises.  When Kafka is initialized the payload is published keyed by `url`;
on a `False` return the identical key/value pair goes to
`refinery_service.process_raw_event`; when Kafka is uninitialized the
fallback is called directly.  There is no try/except in the function, so a
raising publish call escapes (`raised := true`) without reaching the
fallback. -/
def process_success (kafka_initialized : Bool) (publish : Except Unit Bool)
    (url html_content title intent : List Char) (now : Nat) : ProcResult :=
  let payload := mkPayload url html_content title intent now
  if kafka_initialized then
    match publish with
    | Except.ok true => ⟨[Event.publishAttempt url payload], false⟩
    | Except.ok false =>
        ⟨[Event.publishAttempt url payload, Event.fallback url payload], false⟩
    | Except.error _ => ⟨[Event.publishAttempt url payload], true⟩
  else
    ⟨[Event.fallback url payload], false⟩

/-- Terminal result of one target, as in the spec's `CrawlOutcome`:
`success` when `_crawl_single_target` reaches the end of its try block,
`skipped reason` when a guard returns early, `failed` when an exception is
caught at the target boundary (the `except` clause logging a drone crash). -/
inductive Outcome where
  | success
  | skipped (reason : String)
  | failed
  deriving DecidableEq, Repr

/-- The first `page.goto` call: `wait_until="domcontentloaded"`,
`timeout=90000` (line 197). -/
def attempt1 : NavAttempt := ⟨WaitUntil.domcontentloaded, 90000⟩

/-- The second `page.goto` call: `wait_until="domcontentloaded"`,
`timeout=60000` (line 201). -/
def attempt2 : NavAttempt := ⟨WaitUntil.domcontentloaded, 60000⟩

/-- The third `page.goto` call: `wait_until="commit"`, `timeout=60000`
(line 204). -/
def attempt3 : NavAttempt := ⟨WaitUntil.commit, 60000⟩

/-- The nested try ladder of `_crawl_single_target` (lines 194-204).
`g n` tells whether the n-th `goto` call in this page load succeeds.
Returns the attempts actually issued, in order, and whether navigation ended
loaded.  A failure of the third attempt raises to the outer handler. -/
def navigate_ladder (g : Nat → Bool) : List NavAttempt × Bool :=
  if g 0 then ([attempt1], true)
  else if g 1 then ([attempt1, attempt2], true)
  else if g 2 then ([attempt1, attempt2, attempt3], true)
  else ([attempt1, attempt2, attempt3], false)

/-- `"chegg.com" in url or "chegg.com" in url.lower()` (line 145): the
dead-domain blacklist check. -/
def blacklisted (url : List Char) : Bool :=
  containsSub "chegg.com".data url || containsSub "chegg.com".data (lowerStr url)

/-- `"Page Not Found" in title or "404" in title` (line 230): the content
guard's error-page test. -/
def title_bad (title : List Char) : Bool :=
  containsSub "Page Not Found".data title || containsSub "404".data title

/-- Behaviour of the external world for one crawl task:
whether `create_stealth_context()` raises, whether `context.new_page()`
raises, the result of each `page.goto` call, the extracted `page.title()`
and `page.content()`, whether Kafka was initialized, and how
`publish_to_stream` behaves. -/
structure Env where
  ctxCreateThrows : Bool
  pageOpenThrows : Bool
  navSucceeds : Nat → Bool
  title : List Char
  content : List Char
  kafkaInit : Bool
  publish : Except Unit Bool

/-- The try block of `_crawl_single_target` (lines 143-241): blacklist guard,
page creation, navigation ladder, content guards, then `_process_success`.
Every exception raised inside it is caught by the `except` clause, yielding
`Outcome.failed`.  Returns the events of the block and the target's
outcome. -/
def crawl_body (env : Env) (url intent : List Char) (now : Nat) :
    List Event × Outcome :=
  if blacklisted url then ([], Outcome.skipped "blacklisted")
  else if env.pageOpenThrows then ([], Outcome.failed)
  else
    let nav := navigate_ladder env.navSucceeds
    let navEvents := nav.1.map Event.navigate
    if nav.2 then
      if title_bad env.title then
        (Event.pageOpen :: navEvents, Outcome.skipped "not_found")
      else if env.content.length < 5000 then
        (Event.pageOpen :: navEvents, Outcome.skipped "too_thin")
      else
        let pr := process_success env.kafkaInit env.publish url env.content
          env.title intent now
        (Event.pageOpen :: navEvents ++ pr.events,
         if pr.raised then Outcome.failed else Outcome.success)
    else (Event.pageOpen :: navEvents, Outcome.failed)

/-- Result of one crawl task: its event trace and either its outcome or
`Except.error ()` when an exception escaped the task. -/
structure TargetResult where
  events : List Event
  result : Except Unit Outcome

/-- `_crawl_single_target` (crawler_service.py lines 140-243).
`context = await self.create_stealth_context()` stands BEFORE the try block:
if it raises, the exception escapes the task and no context exists to close.
Otherwise the try/except/finally structure guarantees the trace starts with
the context creation and ends with the `finally` close, and every in-body
exception is converted to `Outcome.failed`. -/
def crawl_single_target (env : Env) (url intent : List Char) (now : Nat) :
    TargetResult :=
  if env.ctxCreateThrows then ⟨[], Except.error ()⟩
  else
    let b := crawl_body env url intent now
    ⟨Event.contextCreate :: b.1 ++ [Event.contextClose], Except.ok b.2⟩

/-- Is this `Except` result an escaped exception? -/
def isErr : Except Unit Outcome → Bool
  | Except.error _ => true
  | Except.ok _ => false

/-- One `asyncio.gather` batch (line 136): every task of the batch runs to
its own result. -/
def runBatch (intent : List Char) (now : Nat)
    (batch : List (Env × List Char)) :
    List (List Char × Except Unit Outcome) :=
  batch.map (fun p => (p.2, (crawl_single_target p.1 p.2 intent now).result))

/-- `crawl_and_stream` (crawler_service.py lines 125-138): splits the targets
into batches of `batch_size = 5` and runs each batch with `asyncio.gather`.
Each target is a pair of its environment behaviour and its URL.  `gather`
does not cancel sibling tasks, so every target of the current batch reaches
its own result; but with default arguments `gather` re-raises the first
escaped exception, ending the loop, so later batches never run.  Returns the
per-target results of the batches that ran and whether the loop aborted with
an exception. -/
def crawl_and_stream (intent : List Char) (now : Nat) :
    List (Env × List Char) → List (List Char × Except Unit Outcome) × Bool
  | [] => ([], false)
  | t1 :: t2 :: t3 :: t4 :: t5 :: rest =>
    let res := runBatch intent now [t1, t2, t3, t4, t5]
    if res.any (fun r => isErr r.2) then (res, true)
    else
      let next := crawl_and_stream intent now rest
      (res ++ next.1, next.2)
  | ts =>
    let res := runBatch intent now ts
    (res, res.any (fun r => isErr r.2))

/-- Behaviour of the external world for one `fetch_content` call. -/
structure FetchEnv where
  ctxCreateThrows : Bool
  pageOpenThrows : Bool
  navSucceeds : Nat → Bool
  content : List Char

/-- The first `page.goto` call of `fetch_content`:
`wait_until="domcontentloaded"`, `timeout=60000` (line 297). -/
def fetch_attempt1 : NavAttempt := ⟨WaitUntil.domcontentloaded, 60000⟩

/-- The retry `page.goto` call of `fetch_content`: `wait_until="load"`,
`timeout=30000` (line 300). -/
def fetch_attempt2 : NavAttempt := ⟨WaitUntil.load, 30000⟩

/-- The try block of `fetch_content` (lines 290-310): page creation, the
two-step navigation, extraction.  Any exception inside is caught and turned
into `none`. -/
def fetch_body (env : FetchEnv) : List Event × Option (List Char) :=
  if env.pageOpenThrows then ([], none)
  else if env.navSucceeds 0 then
    ([Event.pageOpen, Event.navigate fetch_attempt1], some env.content)
  else if env.navSucceeds 1 then
    ([Event.pageOpen, Event.navigate fetch_attempt1,
      Event.navigate fetch_attempt2], some env.content)
  else
    ([Event.pageOpen, Event.navigate fetch_attempt1,
      Event.navigate fetch_attempt2], none)

/-- `fetch_content` (crawler_service.py lines 282-313).  As in
`_crawl_single_target`, context creation stands before the try block; once a
context exists the `finally` closes it on every path, and in-body exceptions
yield `none`. -/
def fetch_content (env : FetchEnv) (_url : List Char) :
    List Event × Except Unit (Option (List Char)) :=
  if env.ctxCreateThrows then ([], Except.error ())
  else
    let b := fetch_body env
    (Event.contextCreate :: b.1 ++ [Event.contextClose], Except.ok b.2)

/-- Recognises the `create_stealth_context` call in a trace. -/
def isCtxCreate : Event → Bool
  | Event.contextCreate => true
  | _ => false

/-- Recognises the `context.close()` call in a trace. -/
def isCtxClose : Event → Bool
  | Event.contextClose => true
  | _ => false

/-- Recognises a delivery call (stream publish attempt or refinery
fallback) in a trace. -/
def isDelivery : Event → Bool
  | Event.publishAttempt _ _ => true
  | Event.fallback _ _ => true
  | _ => false

/-- Recognises a refinery fallback call in a trace. -/
def isFallbackEvent : Event → Bool
  | Event.fallback _ _ => true
  | _ => false

/-- Sample environment: a healthy task whose every external call succeeds
but whose navigation ladder never loads. -/
def envOk : Env :=
  { ctxCreateThrows := false, pageOpenThrows := false,
    navSucceeds := fun _ => false, title := [], content := [],
    kafkaInit := false, publish := Except.ok true }

/-- Sample environment: `create_stealth_context()` raises. -/
def envCrash : Env := { envOk with ctxCreateThrows := true }

/-- Sample environment: a fully successful crawl with Kafka initialized and
a publish call that raises. -/
def envPub : Env :=
  { ctxCreateThrows := false, pageOpenThrows := false,
    navSucceeds := fun _ => true, title := "ScholarStream list".data,
    content := List.replicate 5000 'a', kafkaInit := true,
    publish := Except.error () }

/-- Sample environment: a fully successful crawl whose publish call returns
`True`. -/
def envGood : Env := { envPub with publish := Except.ok true }

/-- Sample fetch environment whose every external call succeeds. -/
def fenvOk : FetchEnv :=
  { ctxCreateThrows := false, pageOpenThrows := false,
    navSucceeds := fun _ => true, content := "page".data }

/-- A URL matching the dead-domain blacklist. -/
def cheggUrl : List Char := "https://www.chegg.com/q".data

/-- A URL matching no blacklist, blocked-domain or safe-domain substring. -/
def plainUrl : List Char := "https://a.example.com/1".data

/-- A URL matching both a blocked-domain substring and a safe-domain
substring. -/
def safeTrackerUrl : List Char := "https://api.google-analytics.com/x".data

/-- The intent label used in concrete runs. -/
def gIntent : List Char := "general".data

/-- Six targets in two batches: the first target's context creation raises,
the remaining five are blacklisted (so they are cheap to evaluate). -/
def cexTargets : List (Env × List Char) :=
  [(envCrash, plainUrl), (envOk, cheggUrl), (envOk, cheggUrl),
   (envOk, cheggUrl), (envOk, cheggUrl), (envOk, cheggUrl)]

section Helpers

/-- A crawl task escapes with an exception exactly when its context creation
raises; every other failure is caught at the target boundary. -/
theorem isErr_crawl_single_target (env : Env) (url intent : List Char)
    (now : Nat) :
    isErr (crawl_single_target env url intent now).result =
      env.ctxCreateThrows := by
  cases h : env.ctxCreateThrows <;> simp [crawl_single_target, h, isErr]

/-- When context creation succeeds the task's result is the body's
outcome. -/
theorem crawl_single_target_result (env : Env) (url intent : List Char)
    (now : Nat) (h : env.ctxCreateThrows = false) :
    (crawl_single_target env url intent now).result =
      Except.ok (crawl_body env url intent now).2 := by
  simp [crawl_single_target, h]

/-- When context creation succeeds the trace is the body's trace wrapped in
the context-create / context-close pair. -/
theorem crawl_single_target_events (env : Env) (url intent : List Char)
    (now : Nat) (h : env.ctxCreateThrows = false) :
    (crawl_single_target env url intent now).events =
      Event.contextCreate :: (crawl_body env url intent now).1 ++
        [Event.contextClose] := by
  simp [crawl_single_target, h]

/-- Every event `_process_success` emits is a delivery call. -/
theorem process_success_events_delivery (init : Bool)
    (pub : Except Unit Bool) (url c t i : List Char) (now : Nat) :
    ∀ e ∈ (process_success init pub url c t i now).events,
      isDelivery e = true := by
  intro e he
  cases init <;> rcases pub with u | b <;> try cases b
  all_goals simp [process_success] at he
  all_goals rcases he with rfl | rfl <;> rfl

/-- A delivery call is neither the context creation nor the context close. -/
theorem delivery_not_ctx (e : Event) (h : isDelivery e = true) :
    isCtxCreate e = false ∧ isCtxClose e = false := by
  cases e <;> simp_all [isDelivery, isCtxCreate, isCtxClose]

/-- The body of a crawl task never creates or closes a context itself. -/
theorem crawl_body_events_no_ctx (env : Env) (url intent : List Char)
    (now : Nat) :
    ∀ e ∈ (crawl_body env url intent now).1,
      isCtxCreate e = false ∧ isCtxClose e = false := by
  intro e he
  by_cases h1 : blacklisted url = true
  · simp [crawl_body, h1] at he
  · by_cases h2 : env.pageOpenThrows = true
    · simp [crawl_body, h1, h2] at he
    · by_cases h3 : (navigate_ladder env.navSucceeds).2 = true
      · by_cases h4 : title_bad env.title = true
        · simp [crawl_body, h1, h2, h3, h4] at he
          rcases he with rfl | ⟨a, _, rfl⟩ <;>
            simp [isCtxCreate, isCtxClose]
        · by_cases h5 : env.content.length < 5000
          · simp [crawl_body, h1, h2, h3, h4, h5] at he
            rcases he with rfl | ⟨a, _, rfl⟩ <;>
              simp [isCtxCreate, isCtxClose]
          · simp [crawl_body, h1, h2, h3, h4, h5] at he
            rcases he with rfl | ⟨a, _, rfl⟩ | hmem
            · simp [isCtxCreate, isCtxClose]
            · simp [isCtxCreate, isCtxClose]
            · exact delivery_not_ctx e
                (process_success_events_delivery _ _ _ _ _ _ _ e hmem)
      · simp [crawl_body, h1, h2, h3] at he
        rcases he with rfl | ⟨a, _, rfl⟩ <;>
          simp [isCtxCreate, isCtxClose]

/-- Context bookkeeping of the crawl body as counts. -/
theorem crawl_body_countP_ctx (env : Env) (url intent : List Char)
    (now : Nat) :
    (crawl_body env url intent now).1.countP isCtxCreate = 0 ∧
    (crawl_body env url intent now).1.countP isCtxClose = 0 := by
  constructor <;> rw [List.countP_eq_zero] <;> intro a ha <;>
    simp [(crawl_body_events_no_ctx env url intent now a ha).1,
      (crawl_body_events_no_ctx env url intent now a ha).2]

/-- Context bookkeeping of the fetch body as counts. -/
theorem fetch_body_countP_ctx (env : FetchEnv) :
    (fetch_body env).1.countP isCtxCreate = 0 ∧
    (fetch_body env).1.countP isCtxClose = 0 := by
  unfold fetch_body
  split
  · simp
  · split
    · constructor <;> simp [isCtxCreate, isCtxClose]
    · split <;> constructor <;> simp [isCtxCreate, isCtxClose]

/-- A batch whose targets all have healthy context creation produces one
non-escaped result per target. -/
theorem runBatch_clean (intent : List Char) (now : Nat)
    (batch : List (Env × List Char))
    (h : ∀ p ∈ batch, p.1.ctxCreateThrows = false) :
    (runBatch intent now batch).any (fun r => isErr r.2) = false ∧
    (runBatch intent now batch).length = batch.length ∧
    ∀ r ∈ runBatch intent now batch, isErr r.2 = false := by
  refine ⟨?_, by simp [runBatch], ?_⟩
  · rw [List.any_eq_false]
    intro x hx
    simp only [runBatch, List.mem_map] at hx
    rcases hx with ⟨p, hp, rfl⟩
    simp [isErr_crawl_single_target, h p hp]
  · intro r hr
    simp only [runBatch, List.mem_map] at hr
    rcases hr with ⟨p, hp, rfl⟩
    simp [isErr_crawl_single_target, h p hp]

/-- When no target's context creation raises, the whole crawl loop completes:
no exception escapes, every target of every batch reaches its own result. -/
theorem crawl_and_stream_clean (intent : List Char) (now : Nat) :
    ∀ l : List (Env × List Char),
      (∀ p ∈ l, p.1.ctxCreateThrows = false) →
      (crawl_and_stream intent now l).2 = false ∧
      (crawl_and_stream intent now l).1.length = l.length ∧
      ∀ r ∈ (crawl_and_stream intent now l).1, isErr r.2 = false
  | [], _ => by simp [crawl_and_stream]
  | t1 :: t2 :: t3 :: t4 :: t5 :: rest, h => by
    have hb : ∀ p ∈ [t1, t2, t3, t4, t5], p.1.ctxCreateThrows = false := by
      intro p hp
      simp only [List.mem_cons, List.not_mem_nil, or_false] at hp
      rcases hp with rfl | rfl | rfl | rfl | rfl <;> exact h _ (by simp)
    have hr : ∀ p ∈ rest, p.1.ctxCreateThrows = false := by
      intro p hp; apply h; simp [hp]
    have ih := crawl_and_stream_clean intent now rest hr
    have hbc := runBatch_clean intent now [t1, t2, t3, t4, t5] hb
    have heq : crawl_and_stream intent now
        (t1 :: t2 :: t3 :: t4 :: t5 :: rest) =
        (runBatch intent now [t1, t2, t3, t4, t5] ++
          (crawl_and_stream intent now rest).1,
         (crawl_and_stream intent now rest).2) := by
      simp [crawl_and_stream, hbc.1]
    rw [heq]
    refine ⟨ih.1, ?_, ?_⟩
    · simp only [List.length_append, hbc.2.1, ih.2.1, List.length_cons,
        List.length_nil]
      omega
    · intro r hrr
      rcases List.mem_append.mp hrr with hm | hm
      · exact hbc.2.2 r hm
      · exact ih.2.2 r hm
  | [t1], h => by
    have hbc := runBatch_clean intent now [t1] h
    exact ⟨hbc.1, hbc.2.1, fun r hr => hbc.2.2 r hr⟩
  | [t1, t2], h => by
    have hbc := runBatch_clean intent now [t1, t2] h
    exact ⟨hbc.1, hbc.2.1, fun r hr => hbc.2.2 r hr⟩
  | [t1, t2, t3], h => by
    have hbc := runBatch_clean intent now [t1, t2, t3] h
    exact ⟨hbc.1, hbc.2.1, fun r hr => hbc.2.2 r hr⟩
  | [t1, t2, t3, t4], h => by
    have hbc := runBatch_clean intent now [t1, t2, t3, t4] h
    exact ⟨hbc.1, hbc.2.1, fun r hr => hbc.2.2 r hr⟩

end Helpers

/-- C2: for every payload built from a successful crawl, delivery follows
exactly one of the two paths, never both: with the backbone initialized and
the publish call reporting success only the stream publish runs; with the
backbone uninitialized the identical key/value pair (key = url, value = the
payload) goes to the fallback exactly once and the stream is never called;
with the backbone initialized and the publish call reporting failure the
identical pair goes to the fallback exactly once and the stream publish is
attempted exactly once, never retried. -/
theorem ingestion_delivery_paths (init b : Bool)
    (url content title intent : List Char) (now : Nat) :
    (process_success init (Except.ok b) url content title intent now).raised
      = false ∧
    (init = true → b = true →
      (process_success init (Except.ok b) url content title intent now).events
        = [Event.publishAttempt url (mkPayload url content title intent now)]) ∧
    (init = false →
      (process_success init (Except.ok b) url content title intent now).events
        = [Event.fallback url (mkPayload url content title intent now)]) ∧
    (init = true → b = false →
      (process_success init (Except.ok b) url content title intent now).events
        = [Event.publishAttempt url (mkPayload url content title intent now),
           Event.fallback url (mkPayload url content title intent now)]) := by
  cases init <;> cases b <;> simp [process_success]

/-- C2 witness: with the backbone initialized and a failed publish call on a
concrete payload, the exact trace is one stream attempt followed by one
fallback with the identical key/value pair. -/
theorem ingestion_delivery_paths_w :
    (process_success true (Except.ok false) plainUrl "body".data "t".data
      gIntent 7).events
      = [Event.publishAttempt plainUrl
           (mkPayload plainUrl "body".data "t".data gIntent 7),
         Event.fallback plainUrl
           (mkPayload plainUrl "body".data "t".data gIntent 7)] :=
  (ingestion_delivery_paths true false plainUrl "body".data "t".data
    gIntent 7).2.2.2 rfl rfl

/-- C3 counterexample: with the backbone initialized and a publish call that
raises (rather than returning a failure result), `_process_success` lets the
exception escape and the fallback entry point is never invoked — zero
fallback events — contradicting the claim that the fallback is still invoked
with the identical pair. -/
theorem publish_throw_cex :
    (process_success true (Except.error ()) "https://x.example.org/p".data
      "c".data "t".data "i".data 0).raised = true ∧
    (process_success true (Except.error ()) "https://x.example.org/p".data
      "c".data "t".data "i".data 0).events.countP isFallbackEvent = 0 := by
  decide

/-- C3 (amended): if the stream publish call throws an exception, the
exception escapes `_process_success` (there is no try/except around the
publish call), is caught at the target boundary as a drone crash — the
target ends `Failed` — and the fallback entry point is NOT invoked for that
payload. -/
theorem publish_throw_no_fallback (env : Env) (url intent : List Char)
    (now : Nat) (hk : env.kafkaInit = true)
    (hp : env.publish = Except.error ())
    (hc : env.ctxCreateThrows = false) (hb : blacklisted url = false)
    (hpg : env.pageOpenThrows = false)
    (hn : (navigate_ladder env.navSucceeds).2 = true)
    (ht : title_bad env.title = false) (hl : 5000 ≤ env.content.length) :
    (process_success env.kafkaInit env.publish url env.content env.title
      intent now).raised = true ∧
    (process_success env.kafkaInit env.publish url env.content env.title
      intent now).events.countP isFallbackEvent = 0 ∧
    (crawl_single_target env url intent now).result =
      Except.ok Outcome.failed ∧
    (crawl_single_target env url intent now).events.countP isFallbackEvent
      = 0 := by
  have hproc : process_success env.kafkaInit env.publish url env.content
      env.title intent now =
      ⟨[Event.publishAttempt url
          (mkPayload url env.content env.title intent now)], true⟩ := by
    simp [process_success, hk, hp]
  have hlen : ¬env.content.length < 5000 := by omega
  refine ⟨by simp [hproc], by simp [hproc, isFallbackEvent], ?_, ?_⟩
  · simp [crawl_single_target, hc, crawl_body, hb, hpg, hn, ht, hlen, hproc]
  · simp [crawl_single_target, hc, crawl_body, hb, hpg, hn, ht, hlen, hproc,
      List.countP_cons, List.countP_append, List.countP_map,
      isFallbackEvent, Function.comp]

/-- C3 amended witness: a concrete fully-successful crawl whose publish call
raises ends `Failed` with no fallback invocation. -/
theorem publish_throw_no_fallback_w :
    (crawl_single_target envPub plainUrl gIntent 0).result =
      Except.ok Outcome.failed :=
  (publish_throw_no_fallback envPub plainUrl gIntent 0 rfl rfl rfl
    (by decide) rfl (by decide) (by decide)
    (by simp only [show envPub.content = List.replicate 5000 'a' from rfl,
      List.length_replicate, le_refl])).2.2.1

/-- C4: a target URL matching the dead-domain blacklist substring is skipped
before any navigation: the task's trace is exactly the context create/close
pair — no page is opened, no navigation is attempted, no payload is
delivered — and the outcome is `Skipped("blacklisted")`. -/
theorem blacklist_zero_cost (env : Env) (url intent : List Char) (now : Nat)
    (hctx : env.ctxCreateThrows = false) (hbl : blacklisted url = true) :
    (crawl_single_target env url intent now).events =
      [Event.contextCreate, Event.contextClose] ∧
    (crawl_single_target env url intent now).result =
      Except.ok (Outcome.skipped "blacklisted") := by
  simp [crawl_single_target, hctx, crawl_body, hbl]

/-- C4 witness: a concrete chegg.com target is skipped with a bare
create/close trace. -/
theorem blacklist_zero_cost_w :
    (crawl_single_target envOk cheggUrl gIntent 0).events =
      [Event.contextCreate, Event.contextClose] ∧
    (crawl_single_target envOk cheggUrl gIntent 0).result =
      Except.ok (Outcome.skipped "blacklisted") :=
  blacklist_zero_cost envOk cheggUrl gIntent 0 rfl (by decide)

/-- C5: the batch-crawl route policy aborts image/media/font requests
regardless of URL; otherwise a request whose lowered URL matches a
blocked-domain substring is aborted unless it also matches a safe-domain
substring, in which case it continues; requests matching no blocked
substring continue. -/
theorem route_policy_ordering (rt : ResourceType) (url : List Char) :
    (rt ∈ batch_blocked_types → handle_route rt url = RouteAction.abort) ∧
    (rt ∉ batch_blocked_types → blocked_match (lowerStr url) = true →
      safe_match (lowerStr url) = true →
      handle_route rt url = RouteAction.continue_) ∧
    (rt ∉ batch_blocked_types → blocked_match (lowerStr url) = true →
      safe_match (lowerStr url) = false →
      handle_route rt url = RouteAction.abort) ∧
    (rt ∉ batch_blocked_types → blocked_match (lowerStr url) = false →
      handle_route rt url = RouteAction.continue_) := by
  exact ⟨fun h => by simp [handle_route, h],
    fun h h1 h2 => by simp [handle_route, h, h1, h2],
    fun h h1 h2 => by simp [handle_route, h, h1, h2],
    fun h h1 => by simp [handle_route, h, h1]⟩

/-- C5 witness: an image request on a safe domain is aborted; a script
request on a domain matching both a blocked and a safe substring continues;
a script request on a blocked-only domain is aborted. -/
theorem route_policy_ordering_w :
    handle_route ResourceType.image safeTrackerUrl = RouteAction.abort ∧
    handle_route ResourceType.script safeTrackerUrl =
      RouteAction.continue_ ∧
    handle_route ResourceType.script "https://hotjar.com/t.js".data =
      RouteAction.abort :=
  ⟨(route_policy_ordering ResourceType.image safeTrackerUrl).1 (by decide),
   (route_policy_ordering ResourceType.script safeTrackerUrl).2.1
     (by decide) (by decide) (by decide),
   (route_policy_ordering ResourceType.script
     "https://hotjar.com/t.js".data).2.2.1 (by decide) (by decide)
     (by decide)⟩

/-- C6: the payload's html field is `html_content[:200000]`: a prefix of the
extracted page content of length at most 200000, even when the extracted
content is larger (the statement quantifies over all contents, of any
length). -/
theorem payload_html_cap (url content title intent : List Char)
    (now : Nat) :
    (mkPayload url content title intent now).html = content.take 200000 ∧
    (mkPayload url content title intent now).html.length ≤ 200000 ∧
    (mkPayload url content title intent now).html <+: content := by
  refine ⟨rfl, ?_, ?_⟩
  · simp [mkPayload, List.length_take]
  · exact ⟨content.drop 200000, by simp [mkPayload]⟩

/-- `_process_success` always makes at least one delivery call when it is
reached (stream attempt or fallback). -/
theorem process_success_delivery_pos (init : Bool) (pub : Except Unit Bool)
    (url c t i : List Char) (now : Nat) :
    0 < (process_success init pub url c t i now).events.countP isDelivery := by
  cases init <;> rcases pub with u | b <;> try cases b
  all_goals simp [process_success, isDelivery]

/-- C7: after a successful load and extraction, a title containing
"Page Not Found" or "404" ends the target `Skipped("not_found")` with no
delivery call; otherwise extracted HTML shorter than 5000 ends it
`Skipped("too_thin")` with no delivery call; a page passing both guards
reaches the delivery step (at least one delivery call occurs). -/
theorem content_guard_spec (env : Env) (url intent : List Char) (now : Nat)
    (hctx : env.ctxCreateThrows = false) (hbl : blacklisted url = false)
    (hpg : env.pageOpenThrows = false)
    (hnav : (navigate_ladder env.navSucceeds).2 = true) :
    (title_bad env.title = true →
      (crawl_single_target env url intent now).result =
        Except.ok (Outcome.skipped "not_found") ∧
      (crawl_single_target env url intent now).events.countP isDelivery
        = 0) ∧
    (title_bad env.title = false → env.content.length < 5000 →
      (crawl_single_target env url intent now).result =
        Except.ok (Outcome.skipped "too_thin") ∧
      (crawl_single_target env url intent now).events.countP isDelivery
        = 0) ∧
    (title_bad env.title = false → 5000 ≤ env.content.length →
      0 < (crawl_single_target env url intent now).events.countP
        isDelivery) := by
  refine ⟨fun h1 => ?_, fun h1 h2 => ?_, fun h1 h2 => ?_⟩
  · constructor <;>
      simp [crawl_single_target, hctx, crawl_body, hbl, hpg, hnav, h1,
        List.countP_cons, List.countP_append, List.countP_map,
        Function.comp, isDelivery]
  · constructor <;>
      simp [crawl_single_target, hctx, crawl_body, hbl, hpg, hnav, h1, h2,
        List.countP_cons, List.countP_append, List.countP_map,
        Function.comp, isDelivery]
  · have h2' : ¬env.content.length < 5000 := by omega
    have hpos := process_success_delivery_pos env.kafkaInit env.publish url
      env.content env.title intent now
    simp only [crawl_single_target, hctx, Bool.false_eq_true, if_false,
      crawl_body, hbl, hpg, hnav, h1, h2', if_true]
    simp [List.countP_cons, List.countP_append, List.countP_map,
      Function.comp, isDelivery]
    exact List.countP_pos_iff.mp hpos

/-- C7 witness: a concrete page with a 404 title ends
`Skipped("not_found")` with no delivery, and a concrete page passing both
guards reaches the delivery step. -/
theorem content_guard_spec_w :
    ((crawl_single_target { envGood with title := "404 Not Found".data }
        plainUrl gIntent 0).result =
      Except.ok (Outcome.skipped "not_found") ∧
     (crawl_single_target { envGood with title := "404 Not Found".data }
        plainUrl gIntent 0).events.countP isDelivery = 0) ∧
    0 < (crawl_single_target envGood plainUrl gIntent 0).events.countP
      isDelivery :=
  ⟨(content_guard_spec { envGood with title := "404 Not Found".data }
      plainUrl gIntent 0 rfl (by decide) rfl (by decide)).1 (by decide),
   (content_guard_spec envGood plainUrl gIntent 0 rfl (by decide) rfl
      (by decide)).2.2 (by decide)
      (by simp only [show envGood.content = List.replicate 5000 'a' from rfl,
        List.length_replicate, le_refl])⟩

/-- C8: each page load makes at most three `goto` attempts, in order
DOM-ready/90s then DOM-ready/60s then commit/60s; navigation is loaded iff
some attempt succeeds, the first success ends the ladder, and when all
three fail the target's outcome is `Failed`. -/
theorem navigation_ladder_spec (g : Nat → Bool) (env : Env)
    (url intent : List Char) (now : Nat) :
    (navigate_ladder g).1.length ≤ 3 ∧
    (navigate_ladder g).2 = (g 0 || g 1 || g 2) ∧
    (g 0 = true → (navigate_ladder g).1 = [attempt1]) ∧
    (g 0 = false → g 1 = true →
      (navigate_ladder g).1 = [attempt1, attempt2]) ∧
    (g 0 = false → g 1 = false →
      (navigate_ladder g).1 = [attempt1, attempt2, attempt3]) ∧
    (env.ctxCreateThrows = false → blacklisted url = false →
      env.pageOpenThrows = false → env.navSucceeds 0 = false →
      env.navSucceeds 1 = false → env.navSucceeds 2 = false →
      (crawl_single_target env url intent now).result =
        Except.ok Outcome.failed) := by
  refine ⟨?_, ?_, fun h0 => ?_, fun h0 h1 => ?_, fun h0 h1 => ?_,
    fun hc hb hp n0 n1 n2 => ?_⟩
  · by_cases h0 : g 0 = true <;> by_cases h1 : g 1 = true <;>
      by_cases h2 : g 2 = true <;> simp [navigate_ladder, h0, h1, h2]
  · by_cases h0 : g 0 = true <;> by_cases h1 : g 1 = true <;>
      by_cases h2 : g 2 = true <;> simp [navigate_ladder, h0, h1, h2]
  · simp [navigate_ladder, h0]
  · simp [navigate_ladder, h0, h1]
  · by_cases h2 : g 2 = true <;> simp [navigate_ladder, h0, h1, h2]
  · simp [crawl_single_target, hc, crawl_body, hb, hp, navigate_ladder,
      n0, n1, n2]

/-- C8 witness: with every `goto` failing, a concrete target ends
`Failed`; with the first `goto` succeeding, exactly one attempt
(DOM-ready, 90s) is issued. -/
theorem navigation_ladder_spec_w :
    (crawl_single_target envOk plainUrl gIntent 0).result =
      Except.ok Outcome.failed ∧
    (navigate_ladder (fun _ => true)).1 = [attempt1] :=
  ⟨(navigation_ladder_spec envOk.navSucceeds envOk plainUrl gIntent
      0).2.2.2.2.2 rfl (by decide) rfl rfl rfl rfl,
   (navigation_ladder_spec (fun _ => true) envOk plainUrl gIntent
      0).2.2.1 rfl⟩

/-- C9: every browsing context created by a crawl task or by the direct
single-URL fetch is closed on every exit path: in every trace the number of
context-create events equals the number of context-close events, and
whenever the context was created at all (creation did not raise) the
trace's final event is the context close. -/
theorem context_scoped_cleanup (env : Env) (url intent : List Char)
    (now : Nat) (fenv : FetchEnv) (furl : List Char) :
    ((crawl_single_target env url intent now).events.countP isCtxCreate =
      (crawl_single_target env url intent now).events.countP isCtxClose) ∧
    (env.ctxCreateThrows = false →
      (crawl_single_target env url intent now).events.getLast? =
        some Event.contextClose) ∧
    ((fetch_content fenv furl).1.countP isCtxCreate =
      (fetch_content fenv furl).1.countP isCtxClose) ∧
    (fenv.ctxCreateThrows = false →
      (fetch_content fenv furl).1.getLast? = some Event.contextClose) := by
  refine ⟨?_, fun h => ?_, ?_, fun h => ?_⟩
  · by_cases h : env.ctxCreateThrows = true
    · simp [crawl_single_target, h]
    · simp only [Bool.not_eq_true] at h
      simp [crawl_single_target, h, List.countP_cons, List.countP_append,
        (crawl_body_countP_ctx env url intent now).1,
        (crawl_body_countP_ctx env url intent now).2,
        isCtxCreate, isCtxClose]
  · rw [crawl_single_target_events env url intent now h]
    exact List.getLast?_concat _
  · by_cases h : fenv.ctxCreateThrows = true
    · simp [fetch_content, h]
    · simp only [Bool.not_eq_true] at h
      simp [fetch_content, h, List.countP_cons, List.countP_append,
        (fetch_body_countP_ctx fenv).1, (fetch_body_countP_ctx fenv).2,
        isCtxCreate, isCtxClose]
  · have : (fetch_content fenv furl).1 =
        Event.contextCreate :: (fetch_body fenv).1 ++
          [Event.contextClose] := by
      simp [fetch_content, h]
    rw [this]
    exact List.getLast?_concat _

/-- C9 witness: concrete healthy runs of both operations end their traces
with the context close. -/
theorem context_scoped_cleanup_w :
    (crawl_single_target envGood plainUrl gIntent 0).events.getLast? =
      some Event.contextClose ∧
    (fetch_content fenvOk plainUrl).1.getLast? =
      some Event.contextClose :=
  ⟨(context_scoped_cleanup envGood plainUrl gIntent 0 fenvOk plainUrl).2.1
     rfl,
   (context_scoped_cleanup envGood plainUrl gIntent 0 fenvOk
     plainUrl).2.2.2 rfl⟩

/-- C10: the direct single-URL fetch route policy aborts exactly
image/media/font/stylesheet requests — a strictly larger
blocked-resource-type set than the batch-crawl policy, which does not block
stylesheets by resource type (a stylesheet on an unblocked domain
continues) — and its decision is independent of the URL: all other resource
types continue unconditionally. -/
theorem fetch_route_policy (rt : ResourceType) (u v : List Char) :
    (fetch_route rt u = RouteAction.abort ↔ rt ∈ fetch_blocked_types) ∧
    fetch_route rt u = fetch_route rt v ∧
    (∀ t ∈ batch_blocked_types, t ∈ fetch_blocked_types) ∧
    ResourceType.stylesheet ∉ batch_blocked_types ∧
    ResourceType.stylesheet ∈ fetch_blocked_types ∧
    (blocked_match (lowerStr u) = false →
      handle_route ResourceType.stylesheet u = RouteAction.continue_) := by
  refine ⟨?_, rfl, by decide, by decide, by decide, fun hbm => ?_⟩
  · by_cases h : rt ∈ fetch_blocked_types <;> simp [fetch_route, h]
  · simp [handle_route, hbm]
    decide

/-- C10 witness: a stylesheet request is aborted by the fetch policy but
continues under the batch policy on an unblocked domain, for any URL. -/
theorem fetch_route_policy_w :
    (fetch_route ResourceType.stylesheet plainUrl = RouteAction.abort ↔
      ResourceType.stylesheet ∈ fetch_blocked_types) ∧
    handle_route ResourceType.stylesheet plainUrl =
      RouteAction.continue_ :=
  ⟨(fetch_route_policy ResourceType.stylesheet plainUrl cheggUrl).1,
   (fetch_route_policy ResourceType.stylesheet plainUrl
     cheggUrl).2.2.2.2.2 (by decide)⟩

/-- C1 counterexample: six targets in two batches where the first target's
context creation raises.  The claim promises the failure is counted as
`Failed` for that target and that the subsequent batch still runs; the code
instead lets the exception escape the task (the creation stands before the
try block), `asyncio.gather` re-raises it, and the loop aborts: only the
five results of the first batch exist (the sixth target never runs), the
run ends raised, and the crashing target's entry is an escaped exception,
not a `Failed` outcome. -/
theorem context_crash_escapes_cex :
    cexTargets.length = 6 ∧
    (crawl_and_stream gIntent 0 cexTargets).2 = true ∧
    (crawl_and_stream gIntent 0 cexTargets).1.length = 5 ∧
    ((crawl_and_stream gIntent 0 cexTargets).1.map (fun r => isErr r.2)) =
      [true, false, false, false, false] := by
  decide

/-- C1 (amended): a context-creation exception is NOT isolated to its
target: it escapes the task, so the batch loop aborts — the failing target
gets no `Failed` outcome and later batches never run (the abandoned run
stops at the batch containing the crash, whose siblings still reach their
own results).  Only exceptions raised after the context exists (navigation,
guards, publish) are isolated: when no target's context creation raises, no
exception escapes and every target of every batch reaches its own terminal
outcome. -/
theorem context_crash_isolation_amended (intent : List Char) (now : Nat)
    (targets : List (Env × List Char)) (t : Env × List Char)
    (ts : List (Env × List Char)) :
    ((∀ p ∈ targets, p.1.ctxCreateThrows = false) →
      (crawl_and_stream intent now targets).2 = false ∧
      (crawl_and_stream intent now targets).1.length = targets.length ∧
      ∀ r ∈ (crawl_and_stream intent now targets).1, isErr r.2 = false) ∧
    (t.1.ctxCreateThrows = true →
      (crawl_and_stream intent now (t :: ts)).2 = true ∧
      (crawl_and_stream intent now (t :: ts)).1.length =
        min 5 (ts.length + 1)) := by
  refine ⟨fun h => crawl_and_stream_clean intent now targets h,
    fun ht => ?_⟩
  have hhd : isErr (crawl_single_target t.1 t.2 intent now).result = true := by
    rw [isErr_crawl_single_target]; exact ht
  rcases ts with _ | ⟨a, _ | ⟨b, _ | ⟨c, _ | ⟨d, rest⟩⟩⟩⟩ <;>
    constructor <;>
      simp [crawl_and_stream, runBatch, hhd, List.length_map]

/-- C1 amended witness: a two-target list with healthy context creation
completes with a result per target; a list headed by a context-creation
crash ends raised. -/
theorem context_crash_isolation_amended_w :
    (crawl_and_stream gIntent 0 [(envOk, cheggUrl), (envOk, cheggUrl)]).2 =
      false ∧
    (crawl_and_stream gIntent 0
      ((envCrash, plainUrl) :: [(envOk, cheggUrl)])).2 = true :=
  ⟨((context_crash_isolation_amended gIntent 0
      [(envOk, cheggUrl), (envOk, cheggUrl)] (envCrash, plainUrl)
      [(envOk, cheggUrl)]).1 (by decide)).1,
   ((context_crash_isolation_amended gIntent 0
      [(envOk, cheggUrl), (envOk, cheggUrl)] (envCrash, plainUrl)
      [(envOk, cheggUrl)]).2 (by decide)).1⟩

end Crawler
